import Mathlib

/-!
Shallow embedding of the GCP Workflows compiler (src/main.py) and proofs
about the claims of its specification.

Python dictionaries are modelled as association lists in declaration
order (CPython dictionaries preserve insertion order); YAML/JSON-like
payload values are modelled by the inductive `Yaml`.  Python float
payloads are not modelled (no claim involves them).  Exceptions raised by
the code are modelled with `Except`.
-/

namespace GW

/-- The value universe of the documents the compiler consumes and emits:
Python `None`, strings, integers, booleans, lists and (insertion-ordered)
dictionaries. -/
inductive Yaml where
  | null : Yaml
  | str : String → Yaml
  | int : Int → Yaml
  | bool : Bool → Yaml
  | list : List Yaml → Yaml
  | map : List (String × Yaml) → Yaml

/-- The declared type tags of `dtypes_list = str | int | float | bool | list | dict`. -/
inductive Dtype where
  | string | integer | float | boolean | listT | dictT
deriving DecidableEq

/-- Python `isinstance(value, dtype | None)` as used by
`Param.__post_init__` and `Variable.__post_init__`: `None` is an instance
of every union with `None`, and `bool` is a subclass of `int`. -/
def isinstanceDtypeOrNone : Yaml → Dtype → Bool
  | .null, _ => true
  | .str _, .string => true
  | .int _, .integer => true
  | .bool _, .integer => true
  | .bool _, .boolean => true
  | .list _, .listT => true
  | .map _, .dictT => true
  | _, _ => false

/-- A constructed `Param` (dataclass fields `value`, `dtype`, `name`). -/
structure Param where
  value : Yaml
  dtype : Dtype
  name : String

/-- A constructed `Variable` (dataclass fields `value`, `dtype`, `name`). -/
structure Variable where
  value : Yaml
  dtype : Dtype
  name : String

/-- Construction-time errors raised by the dataclass post-init hooks.
The Python code raises `Exception(f"... is not of type ...")`; the payload
of the message is modelled structurally. -/
inductive PyException where
  | typeMismatch (value : Yaml) (dtype : Dtype)

/-- Constructor `Param(value, dtype, name)` including the `__post_init__` check. -/
def mkParam (value : Yaml) (dtype : Dtype) (name : String) : Except PyException Param :=
  if isinstanceDtypeOrNone value dtype then .ok ⟨value, dtype, name⟩
  else .error (.typeMismatch value dtype)

/-- Constructor `Variable(value, dtype, name)` including the `__post_init__` check. -/
def mkVariable (value : Yaml) (dtype : Dtype) (name : String) : Except PyException Variable :=
  if isinstanceDtypeOrNone value dtype then .ok ⟨value, dtype, name⟩
  else .error (.typeMismatch value dtype)

/-- Edge conditions: `Literal["SUCCESS", "FAILURE", "SKIPPED"]`. -/
inductive Condition where
  | success | failure | skipped
deriving DecidableEq

/-- The string literal an edge condition denotes. -/
def condStr : Condition → String
  | .success => "SUCCESS"
  | .failure => "FAILURE"
  | .skipped => "SKIPPED"

/-- Dataclass `Edge`. -/
structure Edge where
  source : String
  target : String
  condition : Condition
deriving DecidableEq

mutual

/-- The task variants: `SleepTask`, `LogTask`, `HttpTask` (the `BaseTask`
subclasses, carrying their opaque `args` dictionaries and fixed `name`
defaults), `ForLoopTask` and `SetVariablesTask`.  `ForLoopTask.iterable`
is `list[Any]` in the annotation but the code also accepts a string
(variable reference), so it is an arbitrary `Yaml` value here. -/
inductive Task where
  | sleepTask (args : Yaml)
  | logTask (args : Yaml)
  | httpTask (args : Yaml)
  | forLoopTask (nodes : List Node) (key : String) (iterable : Yaml) (parallel : Int)
  | setVariablesTask (data : List (String × Yaml))

/-- Dataclass `Node`: an id together with a task. -/
inductive Node where
  | mk (id : String) (task : Task)

end

/-- Projection of the `id` field of a node. -/
def Node.id : Node → String
  | .mk i _ => i

/-- Whether the task is an instance of `BaseTask` (Sleep, Log or HTTP). -/
def Task.isBase : Task → Bool
  | .sleepTask _ => true
  | .logTask _ => true
  | .httpTask _ => true
  | _ => false

/-- Python `str(self.task)` for the `BaseTask` variants, i.e. the `name` default
(`"sys.sleep"`, `"sys.log"`, `"http.request"`).  Only evaluated on base
tasks in the code; the structural variants return `""` here, unreached. -/
def Task.callName : Task → String
  | .sleepTask _ => "sys.sleep"
  | .logTask _ => "sys.log"
  | .httpTask _ => "http.request"
  | _ => ""

/-- Python `self.task.args` for the `BaseTask` variants (opaque payload). -/
def Task.callArgs : Task → Yaml
  | .sleepTask args => args
  | .logTask args => args
  | .httpTask args => args
  | _ => .null

/-- The local `fix_var_name` computation of the `ForLoopTask` branch of
`Node.get_as_dict`: a string iterable becomes the lookup
expression `"${<name>}"`, anything else is passed through. -/
def fix_var_name : Yaml → Yaml
  | .str s => .str ("$\x7b" ++ s ++ "\x7d")
  | v => v

mutual

/-- Function `Node.get_as_dict`: the lowering of one node to a target-program step. -/
def nodeGetAsDict : Node → Yaml
  | .mk id task =>
    match task with
    | .sleepTask args => execBlock id "sys.sleep" args
    | .logTask args => execBlock id "sys.log" args
    | .httpTask args => execBlock id "http.request" args
    | .forLoopTask nodes key iterable _ =>
      .map [("loop_" ++ id, .map [("parallel", .map [
        ("shared", .list [.str "results"]),
        ("for", .map [
          ("value", .str key),
          ("in", fix_var_name iterable),
          ("steps", .list (nodeListDicts nodes))])])])]
    | .setVariablesTask data =>
      .map [("set_variables_" ++ id, .map [
        ("assign", .list (data.map (fun kv =>
          .map [("variables[\"$" ++ kv.1 ++ "\"]", kv.2)])))])]

/-- Comprehension `[node.get_as_dict() for node in nodes]`. -/
def nodeListDicts : List Node → List Yaml
  | [] => []
  | n :: ns => nodeGetAsDict n :: nodeListDicts ns

/-- The guarded call block emitted for a `BaseTask` node (the
`isinstance(self.task, BaseTask)` branch of `Node.get_as_dict`). -/
def execBlock (id callName : String) (args : Yaml) : Yaml :=
  let callStep : Yaml :=
    .map [("call_node_" ++ id, .map [
      ("call", .str callName),
      ("result", .str (id ++ "_results")),
      ("args", args)])]
  let successAssigns : List Yaml :=
    [.map [("results[\"" ++ id ++ "\"]", .map [])],
     .map [("results[\"" ++ id ++ "\"].status", .str "SUCCESS")],
     .map [("results[\"" ++ id ++ "\"].output", .str ("$\x7b" ++ id ++ "_results\x7d"))]]
  let successStep : Yaml :=
    .map [("assign_success_node_" ++ id, .map [("assign", .list successAssigns)])]
  let errorAssigns : List Yaml :=
    [.map [("results[\"" ++ id ++ "\"]", .map [])],
     .map [("results[\"" ++ id ++ "\"].status", .str "FAILURE")],
     .map [("results[\"" ++ id ++ "\"].output", .str "$\x7be\x7d")]]
  let errorStep : Yaml :=
    .map [("assign_error_node_" ++ id, .map [("assign", .list errorAssigns)])]
  .map [("execute_" ++ id, .map [
    ("try", .map [("steps", .list [callStep, successStep])]),
    ("except", .map [("as", .str "e"), ("steps", .list [errorStep])])])]

end

/-- Dataclass `WorkflowData`: the single input of the compiler. -/
structure WorkflowData where
  nodes : List Node
  edges : List Edge
  params : List Param
  «variables» : List Variable

/-- Runtime errors the compiler itself can raise: the unguarded
`initial_nodes[0]` indexing raises `IndexError` when the list is empty. -/
inductive PyErr where
  | indexError
deriving DecidableEq

/-- The initialization step: `results = {}`, `variables` and `params`
containers built from the declared values. -/
def initStep (data : WorkflowData) : Yaml :=
  .map [("init", .map [("assign", .list [
    .map [("results", .map [])],
    .map [("variables", .map (data.variables.map (fun v => (v.name, v.value))))],
    .map [("params", .map (data.params.map (fun p => (p.name, p.value))))]])])]

/-- Computation of `initial_nodes`: nodes with no incoming edge, in declaration order. -/
def initialNodes (data : WorkflowData) : List Node :=
  data.nodes.filter (fun n => ! data.edges.any (fun e => e.target == n.id))

/-- The `run_initial_nodes` parallel block emitted when there are several
initial nodes. -/
def parallelStep (inits : List Node) : Yaml :=
  .map [("run_initial_nodes", .map [("parallel", .map [
    ("shared", .list [.str "results"]),
    ("branches", .list (inits.map (fun n =>
      .map [("branch_" ++ n.id, .map [("steps", .list [nodeGetAsDict n])])])))])])]

/-- The predicate string synthesized for one incoming edge. -/
def edgePred (e : Edge) : String :=
  "results[\"" ++ e.source ++ "\"].status == \"" ++ condStr e.condition ++ "\""

/-- Function `create_switch_condition`: the conditional dispatch block for a node
with incoming edges. -/
def create_switch_condition (node : Node) (edges : List Edge) (embedded : Bool) : Yaml :=
  let conditions : List (String × Yaml) :=
    [("condition", .str ("$\x7b" ++ String.intercalate " and " (edges.map edgePred) ++ "\x7d"))]
  let conditions :=
    if embedded then conditions ++ [("steps", .list [nodeGetAsDict node])]
    else conditions ++ [("next", .str ("branch_" ++ node.id))]
  .map [("switch_" ++ node.id, .map [("switch", .list [.map conditions])])]

/-- The incoming edges of a node id: `[edge for edge in data.edges if edge.target == node.id]`. -/
def incomingEdges (data : WorkflowData) (nodeId : String) : List Edge :=
  data.edges.filter (fun e => e.target == nodeId)

/-- One iteration of the `for node in data.nodes` loop: the embedded
switch block when the incoming edge list of the node is non-empty
(`if any(edges)`), nothing otherwise. -/
def switchStepFor (edges : List Edge) (n : Node) : Option Yaml :=
  let es := edges.filter (fun e => e.target == n.id)
  if es.isEmpty then none else some (create_switch_condition n es true)

/-- The switch blocks appended by the `for node in data.nodes` loop. -/
def dependentSwitchSteps (data : WorkflowData) : List Yaml :=
  data.nodes.filterMap (switchStepFor data.edges)

/-- The terminal `workflow_end` step. -/
def endStep : Yaml :=
  .map [("workflow_end", .map [("return", .map [("results", .str "$\x7bresults\x7d")])])]

/-- The `steps` list of the workflow built by `compile_to_workflows`, in
append order: init, initial-node dispatch (a parallel block when several
initial nodes, else the unguarded `initial_nodes[0]` lowering, raising
`IndexError` on the empty list), the dependent switch blocks, and the end
step. -/
def workflow_steps (data : WorkflowData) : Except PyErr (List Yaml) :=
  if (initialNodes data).length > 1 then
    .ok ([initStep data, parallelStep (initialNodes data)] ++
         dependentSwitchSteps data ++ [endStep])
  else
    match initialNodes data with
    | [] => .error .indexError
    | n :: _ => .ok ([initStep data, nodeGetAsDict n] ++ dependentSwitchSteps data ++ [endStep])

/-- Function `compile_to_workflows`: the full output document
`{"main": {"params": ["args"], "steps": [...]}}`. -/
def compile_to_workflows (data : WorkflowData) : Except PyErr Yaml :=
  match workflow_steps data with
  | .error e => .error e
  | .ok steps => .ok (.map [("main", .map [
      ("params", .list [.str "args"]),
      ("steps", .list steps)])])

/-- First-match lookup in an association list of map entries. -/
def assocLookup (k : String) : List (String × Yaml) → Option Yaml
  | [] => none
  | (k2, v) :: rest => if k2 == k then some v else assocLookup k rest

/-- Association-list lookup on a `Yaml` map (first match), used to state
claims about fields of the emitted document. -/
def yamlLookup (k : String) : Yaml → Option Yaml
  | .map pairs => assocLookup k pairs
  | _ => none

/-- Positional lookup on a `Yaml` list, used to state claims about the
emitted step sequence. -/
def yamlIndex (i : Nat) : Yaml → Option Yaml
  | .list l => l.get? i
  | _ => none

mutual

/-- Key occurrence test on a `Yaml` document (any nesting depth), used to
state that the failure branch contains no `raise` step. -/
def yamlHasKey (k : String) : Yaml → Bool
  | .map pairs => pairsHaveKey k pairs
  | .list l => listHasKey k l
  | _ => false

/-- Key occurrence test on map entries: the own key of the entry or anywhere
in its value. -/
def pairsHaveKey (k : String) : List (String × Yaml) → Bool
  | [] => false
  | (k2, v) :: rest => k2 == k || yamlHasKey k v || pairsHaveKey k rest

/-- Key occurrence test on the elements of a list value. -/
def listHasKey (k : String) : List Yaml → Bool
  | [] => false
  | v :: rest => yamlHasKey k v || listHasKey k rest

end

/-- Whether a step is a (single-key) map keyed `switch_<nodeId>`, the
shape of every synthesized conditional dispatch block. -/
def isSwitchBlockFor (nodeId : String) : Yaml → Bool
  | .map [(k, _)] => k == "switch_" ++ nodeId
  | _ => false

/-!  Spec-side shapes, transcribed from the words of the specification, to be
compared with the lowerings computed from the source. -/

/-- Modelled from the spec: the assignments of the failure path, writing
`results[id] = \x7bstatus: "FAILURE", output: <captured error>\x7d`. -/
def specErrorAssigns (id : String) : List Yaml :=
  [.map [("results[\"" ++ id ++ "\"]", .map [])],
   .map [("results[\"" ++ id ++ "\"].status", .str "FAILURE")],
   .map [("results[\"" ++ id ++ "\"].output", .str "$\x7be\x7d")]]

/-- Modelled from the spec: the `except` clause of the call-wrapping step,
`\x7b as: "e", steps: [assign_error_node_<id>] \x7d`. -/
def specExceptClause (id : String) : Yaml :=
  .map [("as", .str "e"),
        ("steps", .list [.map [("assign_error_node_" ++ id,
                                .map [("assign", .list (specErrorAssigns id))])]])]

/-- Modelled from the spec: the full call-wrapping step shape
`\x7b execute_<id>: \x7b try: ..., except: ... \x7d \x7d` of §4.2/§6. -/
def specCallWrapShape (id callName : String) (args : Yaml) : Yaml :=
  let callStep : Yaml :=
    .map [("call_node_" ++ id, .map [
      ("call", .str callName),
      ("result", .str (id ++ "_results")),
      ("args", args)])]
  let successAssigns : List Yaml :=
    [.map [("results[\"" ++ id ++ "\"]", .map [])],
     .map [("results[\"" ++ id ++ "\"].status", .str "SUCCESS")],
     .map [("results[\"" ++ id ++ "\"].output", .str ("$\x7b" ++ id ++ "_results\x7d"))]]
  let successStep : Yaml :=
    .map [("assign_success_node_" ++ id, .map [("assign", .list successAssigns)])]
  .map [("execute_" ++ id, .map [
    ("try", .map [("steps", .list [callStep, successStep])]),
    ("except", specExceptClause id)])]

/-!  Concrete inputs used by counterexamples and witnesses. -/

/-- A two-node cyclic graph: A depends on B and B depends on A. -/
def c3Graph : WorkflowData where
  nodes := [.mk "A" (.sleepTask (.map [("seconds", .int 1)])),
            .mk "B" (.sleepTask (.map [("seconds", .int 1)]))]
  edges := [⟨"B", "A", .success⟩, ⟨"A", "B", .success⟩]
  params := []
  «variables» := []

/-- The double-brace template text of the rewrite example in the spec. -/
def logTextIn : String := "\x7b\x7b n1.output.code \x7d\x7d"

/-- The rewritten text the spec requires for `logTextIn`. -/
def logTextSpec : String := "$\x7b n1.output.code \x7d"

/-- A Log node whose `text` argument is the template example. -/
def c4Node : Node := .mk "n2" (.logTask (.map [("text", .str logTextIn), ("data", .null)]))

/-- The `text` field of the args of the call step emitted for `c4Node`. -/
def emittedLogText : Option Yaml :=
  ((((((yamlLookup "execute_n2" (nodeGetAsDict c4Node)).bind
    (yamlLookup "try")).bind (yamlLookup "steps")).bind (yamlIndex 0)).bind
    (yamlLookup "call_node_n2")).bind (yamlLookup "args")).bind (yamlLookup "text")

/-- A graph with two initial nodes and one dependent node. -/
def c5Graph : WorkflowData where
  nodes := [.mk "A" (.sleepTask (.map [("seconds", .int 1)])),
            .mk "B" (.httpTask (.map [("method", .str "GET"), ("url", .str "https://google.com")])),
            .mk "C" (.logTask (.map [("text", .str "ok")]))]
  edges := [⟨"A", "C", .success⟩, ⟨"B", "C", .failure⟩]
  params := []
  «variables» := []

/-- The dependent node of `c5Graph`, with two incoming edges. -/
def c5NodeC : Node := .mk "C" (.logTask (.map [("text", .str "ok")]))

/-- A single-node graph declaring one parameter named `my_param`. -/
def c6Graph : WorkflowData where
  nodes := [.mk "n1" (.sleepTask (.map [("seconds", .int 1)]))]
  edges := []
  params := [⟨.null, .string, "my_param"⟩]
  «variables» := []

/-- A graph with an edge whose source id `ghost` resolves to no node. -/
def c7Graph : WorkflowData where
  nodes := [.mk "n1" (.sleepTask (.map [("seconds", .int 1)])),
            .mk "n2" (.sleepTask (.map [("seconds", .int 2)]))]
  edges := [⟨"ghost", "n2", .success⟩]
  params := []
  «variables» := []

/-- The guard of the switch block emitted for `n2` of `c7Graph`. -/
def c7Guard : Option Yaml :=
  (((((((compile_to_workflows c7Graph).toOption.bind (yamlLookup "main")).bind
    (yamlLookup "steps")).bind (yamlIndex 2)).bind (yamlLookup "switch_n2")).bind
    (yamlLookup "switch")).bind (yamlIndex 0)).bind (yamlLookup "condition")

/-- A concrete Sleep task for witnesses. -/
def c1Task : Task := .sleepTask (.map [("seconds", .int 60)])

/-!  Helper lemmas about the string keys of emitted steps. -/

/-- Appending to a common left part is cancellative on strings. -/
theorem str_append_cancel_left (p a b : String) (h : p ++ a = p ++ b) : a = b := by
  apply_fun String.data at h
  rw [String.data_append, String.data_append] at h
  exact String.ext (List.append_cancel_left h)

/-- Two switch-block keys agree exactly when the node ids agree. -/
theorem beq_switch_key (a b : String) : ("switch_" ++ a == "switch_" ++ b) = (a == b) := by
  by_cases h : a = b
  · subst h; simp
  · have h2 : "switch_" ++ a ≠ "switch_" ++ b := fun hc => h (str_append_cancel_left _ _ _ hc)
    rw [beq_eq_false_iff_ne.mpr h, beq_eq_false_iff_ne.mpr h2]

/-- The key of the init step is no switch-block key. -/
theorem ne_switch_init (a : String) : "init" ≠ "switch_" ++ a := by
  intro h
  apply_fun String.data at h
  rw [String.data_append] at h
  simp [String.data] at h

/-- The key of the parallel dispatch step is no switch-block key. -/
theorem ne_switch_run (a : String) : "run_initial_nodes" ≠ "switch_" ++ a := by
  intro h
  apply_fun String.data at h
  rw [String.data_append] at h
  simp [String.data] at h

/-- The key of the end step is no switch-block key. -/
theorem ne_switch_end (a : String) : "workflow_end" ≠ "switch_" ++ a := by
  intro h
  apply_fun String.data at h
  rw [String.data_append] at h
  simp [String.data] at h

/-- The key of a call-wrap step is no switch-block key. -/
theorem ne_switch_execute (a b : String) : "execute_" ++ a ≠ "switch_" ++ b := by
  intro h
  apply_fun String.data at h
  rw [String.data_append, String.data_append] at h
  simp [String.data] at h

/-- The key of a loop step is no switch-block key. -/
theorem ne_switch_loop (a b : String) : "loop_" ++ a ≠ "switch_" ++ b := by
  intro h
  apply_fun String.data at h
  rw [String.data_append, String.data_append] at h
  simp [String.data] at h

/-- The key of a set-variables step is no switch-block key. -/
theorem ne_switch_setvars (a b : String) : "set_variables_" ++ a ≠ "switch_" ++ b := by
  intro h
  apply_fun String.data at h
  rw [String.data_append, String.data_append] at h
  simp [String.data] at h

/-- No key of the failure-path assignments is the `raise` keyword. -/
theorem ne_raise_results (a b : String) : ("results[\"" ++ a) ++ b ≠ "raise" := by
  intro h
  apply_fun String.data at h
  rw [String.data_append, String.data_append] at h
  simp [String.data] at h

/-- The key of the error-assignment step is not the `raise` keyword. -/
theorem ne_raise_assign_error (a : String) : "assign_error_node_" ++ a ≠ "raise" := by
  intro h
  apply_fun String.data at h
  rw [String.data_append] at h
  simp [String.data] at h

/-- A variables-container assignment key never addresses the results container. -/
theorem ne_variables_key_results (nm rest : String) :
    "variables[\"$" ++ nm ++ "\"]" ≠ "results" ++ rest := by
  intro h
  apply_fun String.data at h
  rw [String.data_append, String.data_append, String.data_append] at h
  simp [String.data] at h

/-!  Helper lemmas about the emitted steps. -/

/-- The embedded switch block, spelled out. -/
theorem create_switch_true (n : Node) (es : List Edge) :
    create_switch_condition n es true =
      .map [("switch_" ++ n.id, .map [("switch", .list [.map [
        ("condition", .str ("$\x7b" ++ String.intercalate " and " (es.map edgePred) ++ "\x7d")),
        ("steps", .list [nodeGetAsDict n])]])])] := rfl

/-- A synthesized switch block is recognized exactly by its node id. -/
theorem isSwitch_create (nid : String) (m : Node) (es : List Edge) :
    isSwitchBlockFor nid (create_switch_condition m es true) = (m.id == nid) := by
  rw [create_switch_true]
  show ("switch_" ++ m.id == "switch_" ++ nid) = (m.id == nid)
  exact beq_switch_key _ _

/-- Any block produced by the dependent-node loop is recognized exactly by
its node id. -/
theorem isSwitch_switchStepFor (edges : List Edge) (m : Node) (nid : String) (y : Yaml)
    (hsw : switchStepFor edges m = some y) :
    isSwitchBlockFor nid y = (m.id == nid) := by
  simp only [switchStepFor] at hsw
  split at hsw
  · cases hsw
  · injection hsw with h2
    rw [← h2, isSwitch_create]

/-- The init step is never a switch block. -/
theorem isSwitch_initStep (data : WorkflowData) (nid : String) :
    isSwitchBlockFor nid (initStep data) = false := by
  show ("init" == "switch_" ++ nid) = false
  exact beq_eq_false_iff_ne.mpr (ne_switch_init nid)

/-- The parallel dispatch step is never a switch block. -/
theorem isSwitch_parallelStep (inits : List Node) (nid : String) :
    isSwitchBlockFor nid (parallelStep inits) = false := by
  show ("run_initial_nodes" == "switch_" ++ nid) = false
  exact beq_eq_false_iff_ne.mpr (ne_switch_run nid)

/-- The end step is never a switch block. -/
theorem isSwitch_endStep (nid : String) : isSwitchBlockFor nid endStep = false := by
  show ("workflow_end" == "switch_" ++ nid) = false
  exact beq_eq_false_iff_ne.mpr (ne_switch_end nid)

/-- A node lowering is never a switch block. -/
theorem isSwitch_nodeDict (nid : String) (n : Node) :
    isSwitchBlockFor nid (nodeGetAsDict n) = false := by
  obtain ⟨id, task⟩ := n
  cases task with
  | sleepTask args =>
    show ("execute_" ++ id == "switch_" ++ nid) = false
    exact beq_eq_false_iff_ne.mpr (ne_switch_execute id nid)
  | logTask args =>
    show ("execute_" ++ id == "switch_" ++ nid) = false
    exact beq_eq_false_iff_ne.mpr (ne_switch_execute id nid)
  | httpTask args =>
    show ("execute_" ++ id == "switch_" ++ nid) = false
    exact beq_eq_false_iff_ne.mpr (ne_switch_execute id nid)
  | forLoopTask nodes key iterable p =>
    show ("loop_" ++ id == "switch_" ++ nid) = false
    exact beq_eq_false_iff_ne.mpr (ne_switch_loop id nid)
  | setVariablesTask d =>
    show ("set_variables_" ++ id == "switch_" ++ nid) = false
    exact beq_eq_false_iff_ne.mpr (ne_switch_setvars id nid)

/-- Nodes whose id differs from `nid` contribute no `switch_<nid>` block. -/
theorem countP_switch_zero (edges : List Edge) (nid : String) :
    ∀ L : List Node, nid ∉ L.map Node.id →
      (L.filterMap (switchStepFor edges)).countP (isSwitchBlockFor nid) = 0 := by
  intro L
  induction L with
  | nil => intro _; rfl
  | cons m L ih =>
    intro hmem
    rw [List.map_cons] at hmem
    have hm : m.id ≠ nid := fun hc => hmem (hc ▸ List.mem_cons_self _ _)
    have hrest : nid ∉ L.map Node.id := fun hc => hmem (List.mem_cons_of_mem _ hc)
    rw [List.filterMap_cons]
    cases hsw : switchStepFor edges m with
    | none => exact ih hrest
    | some y =>
      rw [List.countP_cons, isSwitch_switchStepFor edges m nid y hsw,
          beq_eq_false_iff_ne.mpr hm, ih hrest]
      simp

/-- With distinct node ids, a dependent node contributes exactly one
`switch_<id>` block to the dependent-step section. -/
theorem countP_switch_one (edges : List Edge) (n : Node)
    (hn : edges.filter (fun e => e.target == n.id) ≠ []) :
    ∀ L : List Node, n ∈ L → (L.map Node.id).Nodup →
      (L.filterMap (switchStepFor edges)).countP (isSwitchBlockFor n.id) = 1 := by
  intro L
  induction L with
  | nil => intro h; cases h
  | cons m L ih =>
    intro hmem hnodup
    rw [List.map_cons, List.nodup_cons] at hnodup
    obtain ⟨hnotin, hnodup2⟩ := hnodup
    rw [List.filterMap_cons]
    rcases List.mem_cons.mp hmem with heq | hmem2
    · subst heq
      have hsw : switchStepFor edges n =
          some (create_switch_condition n (edges.filter (fun e => e.target == n.id)) true) := by
        simp only [switchStepFor]
        rw [if_neg (fun hemp => hn (List.isEmpty_iff.mp hemp))]
      rw [hsw, List.countP_cons, isSwitch_create,
          countP_switch_zero edges n.id L hnotin]
      simp
    · have hm : m.id ≠ n.id := fun hc => hnotin (hc ▸ List.mem_map_of_mem Node.id hmem2)
      cases hsw : switchStepFor edges m with
      | none => exact ih hmem2 hnodup2
      | some y =>
        rw [List.countP_cons, isSwitch_switchStepFor edges m n.id y hsw,
            beq_eq_false_iff_ne.mpr hm, ih hmem2 hnodup2]
        simp

/-- When an initial node exists, compilation succeeds and the emitted
steps are the init step, one dispatch step that is no switch block, the
dependent switch blocks and the end step. -/
theorem workflow_steps_ok (data : WorkflowData) (hinit : initialNodes data ≠ []) :
    ∃ X, workflow_steps data =
        .ok ([initStep data, X] ++ dependentSwitchSteps data ++ [endStep]) ∧
      ∀ nid, isSwitchBlockFor nid X = false := by
  unfold workflow_steps
  by_cases hlen : (initialNodes data).length > 1
  · rw [if_pos hlen]
    exact ⟨parallelStep (initialNodes data), rfl, fun nid => isSwitch_parallelStep _ nid⟩
  · rw [if_neg hlen]
    cases hini : initialNodes data with
    | nil => exact absurd hini hinit
    | cons n rest => exact ⟨nodeGetAsDict n, rfl, fun nid => isSwitch_nodeDict nid n⟩

/-- Every failure-path assignment addresses only the `results[id]` entry. -/
theorem error_assign_keys (id : String) :
    ∀ k v, Yaml.map [(k, v)] ∈ specErrorAssigns id →
      k = "results[\"" ++ id ++ "\"]" ∨ k = "results[\"" ++ id ++ "\"].status" ∨
      k = "results[\"" ++ id ++ "\"].output" := by
  intro k v h
  simp only [specErrorAssigns, List.mem_cons, List.not_mem_nil, or_false] at h
  rcases h with h | h | h <;> [skip; skip; skip] <;>
    · injection h with h1
      injection h1 with h2
      injection h2 with h3
      simp [h3]

/-- The except clause of a call-wrapping step contains no `raise` step. -/
theorem no_raise_in_except (id : String) :
    yamlHasKey "raise" (specExceptClause id) = false := by
  simp [specExceptClause, specErrorAssigns, yamlHasKey, pairsHaveKey, listHasKey,
    beq_eq_false_iff_ne.mpr (ne_raise_assign_error id),
    beq_eq_false_iff_ne.mpr (ne_raise_results id "\"]"),
    beq_eq_false_iff_ne.mpr (ne_raise_results id "\"].status"),
    beq_eq_false_iff_ne.mpr (ne_raise_results id "\"].output")]

/-- C1: every leaf/call-task node (Sleep, Log, HTTP) lowers to the single
guarded step `execute_<id>` with a try branch holding `call_node_<id>`
(call name, result, args) followed by `assign_success_node_<id>` setting
`results[id].status = "SUCCESS"` and `results[id].output` to the call
result, and an except branch (`as: "e"`) holding only
`assign_error_node_<id>` setting `results[id].status = "FAILURE"` and
`results[id].output` to the captured error; the failure branch writes
only to `results[id]` and contains no re-raise. -/
theorem C1_call_task_lowering (id : String) (t : Task) (h : t.isBase = true) :
    nodeGetAsDict (.mk id t) = specCallWrapShape id t.callName t.callArgs ∧
    (∀ k v, Yaml.map [(k, v)] ∈ specErrorAssigns id →
      k = "results[\"" ++ id ++ "\"]" ∨ k = "results[\"" ++ id ++ "\"].status" ∨
      k = "results[\"" ++ id ++ "\"].output") ∧
    yamlHasKey "raise" (specExceptClause id) = false := by
  refine ⟨?_, error_assign_keys id, no_raise_in_except id⟩
  cases t with
  | sleepTask args => rfl
  | logTask args => rfl
  | httpTask args => rfl
  | forLoopTask nodes key iterable p => simp [Task.isBase] at h
  | setVariablesTask d => simp [Task.isBase] at h

/-- C1 witness: the guarded-call lowering of a concrete Sleep node. -/
theorem C1_call_task_lowering_witness :
    c1Task.isBase = true ∧
    (nodeGetAsDict (.mk "n1" c1Task) = specCallWrapShape "n1" c1Task.callName c1Task.callArgs ∧
     (∀ k v, Yaml.map [(k, v)] ∈ specErrorAssigns "n1" →
       k = "results[\"" ++ "n1" ++ "\"]" ∨ k = "results[\"" ++ "n1" ++ "\"].status" ∨
       k = "results[\"" ++ "n1" ++ "\"].output") ∧
     yamlHasKey "raise" (specExceptClause "n1") = false) :=
  ⟨rfl, C1_call_task_lowering "n1" c1Task rfl⟩

/-- C2: every top-level node with incoming edges yields exactly one
`switch_<id>` block among the emitted steps; its single condition is the
AND-join, over the incoming edges, of `results["<source>"].status ==
"<condition>"`, and it embeds the lowering of the node as its steps; for two
edges requiring SUCCESS from A and FAILURE from B the guard is exactly
both predicates joined by `" and "`. -/
theorem C2_switch_synthesis (data : WorkflowData) (n : Node)
    (hmem : n ∈ data.nodes)
    (hedges : incomingEdges data n.id ≠ [])
    (hinit : initialNodes data ≠ [])
    (hnodup : (data.nodes.map Node.id).Nodup) :
    ∃ steps : List Yaml, workflow_steps data = .ok steps ∧
      steps.countP (isSwitchBlockFor n.id) = 1 ∧
      create_switch_condition n (incomingEdges data n.id) true ∈ steps ∧
      create_switch_condition n (incomingEdges data n.id) true =
        .map [("switch_" ++ n.id, .map [("switch", .list [.map [
          ("condition", .str ("$\x7b" ++ String.intercalate " and "
            ((incomingEdges data n.id).map edgePred) ++ "\x7d")),
          ("steps", .list [nodeGetAsDict n])]])])] ∧
      (∀ t : Task, create_switch_condition (.mk "C" t)
          [⟨"A", "C", .success⟩, ⟨"B", "C", .failure⟩] true =
        .map [("switch_C", .map [("switch", .list [.map [
          ("condition", .str
            "$\x7bresults[\"A\"].status == \"SUCCESS\" and results[\"B\"].status == \"FAILURE\"\x7d"),
          ("steps", .list [nodeGetAsDict (.mk "C" t)])]])])]) := by
  obtain ⟨X, hX, hXns⟩ := workflow_steps_ok data hinit
  refine ⟨_, hX, ?_, ?_, rfl, fun t => rfl⟩
  · rw [List.countP_append, List.countP_append]
    have h1 : [initStep data, X].countP (isSwitchBlockFor n.id) = 0 := by
      rw [List.countP_cons, List.countP_cons, List.countP_nil,
          isSwitch_initStep data n.id, hXns n.id]
      rfl
    have h2 : [endStep].countP (isSwitchBlockFor n.id) = 0 := by
      rw [List.countP_cons, List.countP_nil, isSwitch_endStep n.id]
      rfl
    have h3 : (dependentSwitchSteps data).countP (isSwitchBlockFor n.id) = 1 := by
      unfold dependentSwitchSteps
      exact countP_switch_one data.edges n hedges data.nodes hmem hnodup
    rw [h1, h2, h3]
  · apply List.mem_append_left
    apply List.mem_append_right
    unfold dependentSwitchSteps
    refine List.mem_filterMap.mpr ⟨n, hmem, ?_⟩
    simp only [switchStepFor]
    split
    · rename_i hemp
      exact absurd (List.isEmpty_iff.mp hemp) hedges
    · rfl

/-- C2 witness: the dependent node `C` of the concrete graph with edges
`A → C` on SUCCESS and `B → C` on FAILURE. -/
theorem C2_switch_synthesis_witness :
    c5NodeC ∈ c5Graph.nodes ∧ incomingEdges c5Graph c5NodeC.id ≠ [] ∧
    initialNodes c5Graph ≠ [] ∧ (c5Graph.nodes.map Node.id).Nodup ∧
    (∃ steps : List Yaml, workflow_steps c5Graph = .ok steps ∧
      steps.countP (isSwitchBlockFor c5NodeC.id) = 1 ∧
      create_switch_condition c5NodeC (incomingEdges c5Graph c5NodeC.id) true ∈ steps ∧
      create_switch_condition c5NodeC (incomingEdges c5Graph c5NodeC.id) true =
        .map [("switch_" ++ c5NodeC.id, .map [("switch", .list [.map [
          ("condition", .str ("$\x7b" ++ String.intercalate " and "
            ((incomingEdges c5Graph c5NodeC.id).map edgePred) ++ "\x7d")),
          ("steps", .list [nodeGetAsDict c5NodeC])]])])] ∧
      (∀ t : Task, create_switch_condition (.mk "C" t)
          [⟨"A", "C", .success⟩, ⟨"B", "C", .failure⟩] true =
        .map [("switch_C", .map [("switch", .list [.map [
          ("condition", .str
            "$\x7bresults[\"A\"].status == \"SUCCESS\" and results[\"B\"].status == \"FAILURE\"\x7d"),
          ("steps", .list [nodeGetAsDict (.mk "C" t)])]])])])) := by
  have hm : c5NodeC ∈ c5Graph.nodes := by simp [c5Graph, c5NodeC]
  have he : incomingEdges c5Graph c5NodeC.id ≠ [] := by decide
  have hi : initialNodes c5Graph ≠ [] :=
    fun h => absurd (congrArg List.length h) (by decide)
  have hd : (c5Graph.nodes.map Node.id).Nodup := by decide
  exact ⟨hm, he, hi, hd, C2_switch_synthesis c5Graph c5NodeC hm he hi hd⟩

/-- C3: on the cyclic two-node graph (A depends on B, B depends on A) no
node lacks incoming edges, and the compiler raises `IndexError` from the
unguarded `initial_nodes[0]` access instead of a `NoInitialNode` or
`CyclicGraph` validation error. -/
theorem C3_cycle_crashes_with_index_error :
    initialNodes c3Graph = [] ∧
    compile_to_workflows c3Graph = .error .indexError := ⟨rfl, rfl⟩

/-- C4 counterexample: the Log task text `"{{ n1.output.code }}"` is not
rewritten: the args of the emitted call step carry it verbatim, not as
`"${ n1.output.code }"`. -/
theorem C4_counterexample :
    emittedLogText = some (.str logTextIn) ∧
    emittedLogText ≠ some (.str logTextSpec) := by
  refine ⟨rfl, ?_⟩
  intro h
  rw [show emittedLogText = some (.str logTextIn) from rfl] at h
  injection h with h2
  injection h2 with h3
  exact absurd h3 (by decide)

/-- C4 amended: no template rewrite pass exists; the `text` of a Log node (and
its whole args payload) is passed through to the emitted call step
verbatim. -/
theorem C4_amended_no_rewrite (id : String) (args : Yaml) :
    nodeGetAsDict (.mk id (.logTask args)) = specCallWrapShape id "sys.log" args ∧
    yamlLookup "args" (.map [("call", .str "sys.log"),
      ("result", .str (id ++ "_results")), ("args", args)]) = some args :=
  ⟨rfl, rfl⟩

/-- C5: with at least two initial nodes, the second emitted step is the
`run_initial_nodes` parallel block, whose shared list is `["results"]`
and whose branch list carries one branch (the lowering of the node) per
initial node. -/
theorem C5_parallel_initial_block (data : WorkflowData)
    (h2 : 2 ≤ (initialNodes data).length) :
    ∃ steps : List Yaml, workflow_steps data = .ok steps ∧
      steps.get? 1 = some (parallelStep (initialNodes data)) ∧
      parallelStep (initialNodes data) =
        .map [("run_initial_nodes", .map [("parallel", .map [
          ("shared", .list [.str "results"]),
          ("branches", .list ((initialNodes data).map (fun n =>
            .map [("branch_" ++ n.id, .map [("steps", .list [nodeGetAsDict n])])])))])])] ∧
      ((initialNodes data).map (fun n =>
          Yaml.map [("branch_" ++ n.id, .map [("steps", .list [nodeGetAsDict n])])])).length =
        (initialNodes data).length := by
  have hlen : (initialNodes data).length > 1 := h2
  have hws : workflow_steps data =
      .ok ([initStep data, parallelStep (initialNodes data)] ++
           dependentSwitchSteps data ++ [endStep]) := by
    unfold workflow_steps
    rw [if_pos hlen]
  exact ⟨_, hws, rfl, rfl, by simp⟩

/-- C5 witness: the concrete graph with initial nodes A and B. -/
theorem C5_parallel_initial_block_witness :
    2 ≤ (initialNodes c5Graph).length ∧
    (∃ steps : List Yaml, workflow_steps c5Graph = .ok steps ∧
      steps.get? 1 = some (parallelStep (initialNodes c5Graph)) ∧
      parallelStep (initialNodes c5Graph) =
        .map [("run_initial_nodes", .map [("parallel", .map [
          ("shared", .list [.str "results"]),
          ("branches", .list ((initialNodes c5Graph).map (fun n =>
            .map [("branch_" ++ n.id, .map [("steps", .list [nodeGetAsDict n])])])))])])] ∧
      ((initialNodes c5Graph).map (fun n =>
          Yaml.map [("branch_" ++ n.id, .map [("steps", .list [nodeGetAsDict n])])])).length =
        (initialNodes c5Graph).length) :=
  ⟨by decide, C5_parallel_initial_block c5Graph (by decide)⟩

/-- C6 counterexample: on a graph declaring the parameter `my_param`, the
output document has no top-level `params` field (everything sits under
`main`), and the `params` field of the workflow is the fixed list `["args"]`,
not the declared parameter names. -/
theorem C6_counterexample :
    (compile_to_workflows c6Graph).toOption.bind (yamlLookup "params") = none ∧
    ((compile_to_workflows c6Graph).toOption.bind (yamlLookup "main")).bind
      (yamlLookup "params") = some (.list [.str "args"]) ∧
    Yaml.list [.str "args"] ≠ Yaml.list [.str "my_param"] ∧
    c6Graph.params.map Param.name = ["my_param"] := by
  refine ⟨rfl, rfl, by simp, rfl⟩

/-- C6 amended: the output is `\x7bmain: \x7bparams: ["args"], steps:
[...]\x7d\x7d` with the hardcoded params list `["args"]`; the first step
is the init step assigning `results = \x7b\x7d`, the declared variables
and the declared params, and the last step is the `workflow_end` return
of `results`. -/
theorem C6_amended_shape (data : WorkflowData) (hinit : initialNodes data ≠ []) :
    ∃ steps : List Yaml, compile_to_workflows data = .ok (.map [("main", .map [
        ("params", .list [.str "args"]), ("steps", .list steps)])]) ∧
      steps.head? = some (initStep data) ∧
      initStep data = .map [("init", .map [("assign", .list [
        .map [("results", .map [])],
        .map [("variables", .map (data.variables.map (fun v => (v.name, v.value))))],
        .map [("params", .map (data.params.map (fun p => (p.name, p.value))))]])])] ∧
      steps.getLast? = some endStep ∧
      endStep = .map [("workflow_end", .map [("return",
        .map [("results", .str "$\x7bresults\x7d")])])] := by
  obtain ⟨X, hX, -⟩ := workflow_steps_ok data hinit
  refine ⟨[initStep data, X] ++ dependentSwitchSteps data ++ [endStep], ?_, rfl, rfl, ?_, rfl⟩
  · simp only [compile_to_workflows, hX]
  · exact List.getLast?_concat _

/-- C6 amended witness: the single-node graph with one declared param. -/
theorem C6_amended_shape_witness :
    initialNodes c6Graph ≠ [] ∧
    (∃ steps : List Yaml, compile_to_workflows c6Graph = .ok (.map [("main", .map [
        ("params", .list [.str "args"]), ("steps", .list steps)])]) ∧
      steps.head? = some (initStep c6Graph) ∧
      initStep c6Graph = .map [("init", .map [("assign", .list [
        .map [("results", .map [])],
        .map [("variables", .map (c6Graph.variables.map (fun v => (v.name, v.value))))],
        .map [("params", .map (c6Graph.params.map (fun p => (p.name, p.value))))]])])] ∧
      steps.getLast? = some endStep ∧
      endStep = .map [("workflow_end", .map [("return",
        .map [("results", .str "$\x7bresults\x7d")])])]) := by
  have hi : initialNodes c6Graph ≠ [] :=
    fun h => absurd (congrArg List.length h) (by decide)
  exact ⟨hi, C6_amended_shape c6Graph hi⟩

/-- C7 counterexample: the graph with the dangling edge `ghost → n2`
compiles successfully — no `UnknownReference` validation error is raised
— and the unresolved id `ghost` is embedded verbatim in the emitted
guard. -/
theorem C7_counterexample :
    (compile_to_workflows c7Graph).toOption.isSome = true ∧
    c7Guard = some (.str "$\x7bresults[\"ghost\"].status == \"SUCCESS\"\x7d") := ⟨rfl, rfl⟩

/-- C7 amended: no pre-compilation validation pass exists; a graph with
an edge whose source resolves to no node still compiles successfully
whenever an initial node exists. -/
theorem C7_amended_no_validation (data : WorkflowData) (e : Edge)
    (_he : e ∈ data.edges) (_hsrc : ∀ n ∈ data.nodes, n.id ≠ e.source)
    (hinit : initialNodes data ≠ []) :
    ∃ steps : List Yaml, compile_to_workflows data = .ok (.map [("main", .map [
      ("params", .list [.str "args"]), ("steps", .list steps)])]) := by
  obtain ⟨X, hX, -⟩ := workflow_steps_ok data hinit
  refine ⟨[initStep data, X] ++ dependentSwitchSteps data ++ [endStep], ?_⟩
  simp only [compile_to_workflows, hX]

/-- C7 amended witness: the concrete dangling-edge graph. -/
theorem C7_amended_no_validation_witness :
    (⟨"ghost", "n2", .success⟩ : Edge) ∈ c7Graph.edges ∧
    (∀ n ∈ c7Graph.nodes, n.id ≠ "ghost") ∧ initialNodes c7Graph ≠ [] ∧
    (∃ steps : List Yaml, compile_to_workflows c7Graph = .ok (.map [("main", .map [
      ("params", .list [.str "args"]), ("steps", .list steps)])])) := by
  have h1 : (⟨"ghost", "n2", .success⟩ : Edge) ∈ c7Graph.edges := by decide
  have h2 : ∀ n ∈ c7Graph.nodes, n.id ≠ "ghost" := by decide
  have h3 : initialNodes c7Graph ≠ [] :=
    fun h => absurd (congrArg List.length h) (by decide)
  exact ⟨h1, h2, h3, C7_amended_no_validation c7Graph _ h1 h2 h3⟩

/-- C8: a Set-Variables node lowers to assignment steps only — one
assignment per declared entry in declaration order, each keyed
`variables["$<name>"]` under the variables container — with no `call`
field in the step body, and no assignment key ever addresses the
results container. -/
theorem C8_set_variables_lowering (id : String) (entries : List (String × Yaml)) :
    nodeGetAsDict (.mk id (.setVariablesTask entries)) =
      .map [("set_variables_" ++ id, .map [("assign",
        .list (entries.map (fun kv => .map [("variables[\"$" ++ kv.1 ++ "\"]", kv.2)])))])] ∧
    (entries.map (fun kv => Yaml.map [("variables[\"$" ++ kv.1 ++ "\"]", kv.2)])).length =
      entries.length ∧
    yamlLookup "call" (.map [("assign",
      .list (entries.map (fun kv => .map [("variables[\"$" ++ kv.1 ++ "\"]", kv.2)])))]) =
      none ∧
    (∀ nm rest : String, "variables[\"$" ++ nm ++ "\"]" ≠ "results" ++ rest) :=
  ⟨rfl, by simp, rfl, ne_variables_key_results⟩

/-- C9: constructing a Param or Variable with declared type string and
value 42 raises the type-mismatch error, while a `None` value is accepted
for every declared type. -/
theorem C9_type_mismatch :
    mkParam (.int 42) .string "p" = .error (.typeMismatch (.int 42) .string) ∧
    mkVariable (.int 42) .string "v" = .error (.typeMismatch (.int 42) .string) ∧
    (∀ (dt : Dtype) (nm : String), mkParam .null dt nm = .ok ⟨.null, dt, nm⟩) ∧
    (∀ (dt : Dtype) (nm : String), mkVariable .null dt nm = .ok ⟨.null, dt, nm⟩) :=
  ⟨rfl, rfl, fun _ _ => rfl, fun _ _ => rfl⟩

/-- C10: the For-Loop lowering ignores the parallelism field — two loops
differing only there lower identically — and is always a parallel
for-block sharing `results`, iterating over the literal sequence or the
`$\x7b<name>\x7d` lookup when the iterable is a string reference, with
the ordered lowering of the body nodes as its steps. -/
theorem C10_forloop_parallelism_independent :
    (∀ (id : String) (nodes : List Node) (key : String) (iterable : Yaml) (p1 p2 : Int),
      nodeGetAsDict (.mk id (.forLoopTask nodes key iterable p1)) =
        nodeGetAsDict (.mk id (.forLoopTask nodes key iterable p2))) ∧
    (∀ (id : String) (nodes : List Node) (key : String) (iterable : Yaml) (p : Int),
      nodeGetAsDict (.mk id (.forLoopTask nodes key iterable p)) =
        .map [("loop_" ++ id, .map [("parallel", .map [
          ("shared", .list [.str "results"]),
          ("for", .map [("value", .str key), ("in", fix_var_name iterable),
                        ("steps", .list (nodeListDicts nodes))])])])]) ∧
    (∀ s : String, fix_var_name (.str s) = .str ("$\x7b" ++ s ++ "\x7d")) ∧
    (∀ l : List Yaml, fix_var_name (.list l) = .list l) :=
  ⟨fun _ _ _ _ _ _ => rfl, fun _ _ _ _ _ => rfl, fun _ => rfl, fun _ => rfl⟩

end GW

